import Mathlib

/-!
# Verification of the odometer-scanner component

Shallow embedding of the two React components in this repository:

* `Part000` models `src/unnamed/part_000`;
* `OcrJs` models `src/src/ocr.js`.

Both components share their data model (`State`, `Hardware`, `Reading`),
their `stopCamera` and `deleteReading` operations (character-identical in the
two files), and differ in `startCamera`, `captureAndProcess` and
`exportReadings`.

External, asynchronous browser behaviour (the result of `getUserMedia`, the
arrival time of the first decoded frame, the recognizer's outcome, the wall
clock driving `Date.now()`) is passed in explicitly through environment
records (`StartEnv`, `CaptureEnv`); everything else is translated directly
from the JavaScript source.
-/

namespace Odometer

/-- A hardware media stream handle: an allocation id plus the liveness flag of
each constituent track (`true` = live). Models a `MediaStream`. -/
structure HWStream where
  sid : Nat
  tracks : List Bool
  deriving DecidableEq

/-- A stream is active when at least one of its tracks is still live. -/
def HWStream.isActive (st : HWStream) : Bool := st.tracks.any (fun b => b)

/-- `track.stop()` applied to every constituent track
(`stream.getTracks().forEach(track => track.stop())`). -/
def HWStream.stopAll (st : HWStream) : HWStream :=
  { st with tracks := st.tracks.map (fun _ => false) }

/-- The camera hardware: every stream ever handed out by `getUserMedia`,
together with the next fresh allocation id. -/
structure Hardware where
  nextSid : Nat
  streams : List HWStream
  deriving DecidableEq

/-- A successful `getUserMedia` call: a fresh stream with `k` live tracks. -/
def Hardware.alloc (hw : Hardware) (k : Nat) : Hardware :=
  { nextSid := hw.nextSid + 1,
    streams := hw.streams ++ [⟨hw.nextSid, List.replicate k true⟩] }

/-- Stopping every track of the stream with id `sid`. -/
def Hardware.stopTracks (hw : Hardware) (sid : Nat) : Hardware :=
  { hw with streams :=
      hw.streams.map (fun st => if st.sid = sid then st.stopAll else st) }

/-- Number of streams that still have a live track. -/
def Hardware.activeCount (hw : Hardware) : Nat :=
  (hw.streams.filter HWStream.isActive).length

/-- The `<video>` preview element: its attached stream (`srcObject`) and its
decoded frame dimensions. -/
structure VideoEl where
  srcObject : Option Nat
  videoWidth : Nat
  videoHeight : Nat
  deriving DecidableEq

/-- One CaptureRecord of the reading history (`newReading` in the source). -/
structure Reading where
  id : Nat
  reading : Nat
  timestamp : String
  imageSrc : String
  deriving DecidableEq

/-- The component state: React `useState`/`useRef` cells, the hardware view,
and the wall clock (milliseconds, drives `Date.now()`). -/
structure State where
  hw : Hardware
  isScanning : Bool
  isProcessing : Bool
  capturedImage : Option String
  ocrResult : String
  readings : List Reading
  error : Option String
  videoRef : Option VideoEl
  streamRef : Option Nat
  clock : Nat
  deriving DecidableEq

/-- Freshly mounted component: no stream, no readings, no error. -/
def initState : State :=
  { hw := ⟨0, []⟩, isScanning := false, isProcessing := false,
    capturedImage := none, ocrResult := "", readings := [],
    error := none, videoRef := none, streamRef := none, clock := 0 }

/-- A JavaScript error value, as observed by the catch blocks
(`name` and `message`; an absent property is modelled as `""`). -/
structure JsError where
  name : String
  msg : String
  deriving DecidableEq

/-- Outcome of the `navigator.mediaDevices.getUserMedia` call. -/
inductive GumResult where
  | ok (trackCount : Nat)
  | err (e : JsError)
  deriving DecidableEq

/-- Environment of one `startCamera` invocation: every external fact the code
branches on. `metadataAt = some (t, w, h)` means `onloadedmetadata` fires
`t` ms after the wait begins, with decoded dimensions `w × h`;
`none` means it never fires. -/
structure StartEnv where
  apiSupported : Bool
  secureContext : Bool
  gum : GumResult
  videoPresent : Bool
  videoErr : Bool
  metadataAt : Option (Nat × Nat × Nat)
  playErr : Option JsError
  deriving DecidableEq

/-- Environment of one `captureAndProcess` invocation. `drift` is the extra
wall-clock time (beyond the reference 1000 ms recognizer delay) that elapses
before `Date.now()` is read; `ok` is whether the processing step resolves
without throwing; `ts` is `new Date().toLocaleString()` at completion. -/
structure CaptureEnv where
  drift : Nat
  random : Nat
  ok : Bool
  ts : String
  deriving DecidableEq

/-- Capture-flow events, used to state the teardown-ordering property. -/
inductive Ev where
  | drew
  | recognized (ok : Bool)
  | appended
  | streamStopped
  deriving DecidableEq

/-- `streamRef.current.getTracks().forEach(track => track.stop())` applied to
the held stream, keeping the handle (`part_000` lines 36-38). -/
def releaseHeld (s : State) : State :=
  match s.streamRef with
  | some sid => { s with hw := s.hw.stopTracks sid }
  | none => s

/-- A successful `getUserMedia` followed by `streamRef.current = stream`:
a fresh stream with `k` live tracks becomes the held handle. -/
def acquire (s : State) (k : Nat) : State :=
  { s with hw := s.hw.alloc k, streamRef := some s.hw.nextSid }

/-- `videoRef.current.srcObject = stream`: attach the held stream to the
preview element. -/
def bindPreview (s : State) : State :=
  { s with videoRef := some { s.videoRef.getD ⟨none, 0, 0⟩ with srcObject := s.streamRef } }

/-- `onloadedmetadata` has fired: the element reports decoded dimensions. -/
def setDims (s : State) (w h : Nat) : State :=
  { s with videoRef := s.videoRef.map (fun v => { v with videoWidth := w, videoHeight := h }) }

/-- `stopCamera`, identical in both files (`src/src/ocr.js` lines 74-83,
`src/unnamed/part_000` lines 100-109): stop every track of the current
stream, drop the handle, detach the preview, leave scanning mode. -/
def stopCamera (s : State) : State :=
  let s1 := match s.streamRef with
    | some sid => { s with hw := s.hw.stopTracks sid, streamRef := none }
    | none => s
  { s1 with videoRef := s1.videoRef.map (fun v => { v with srcObject := none }),
            isScanning := false }

/-- `deleteReading`, identical in both files: keep the records whose id
differs (`readings.filter(reading => reading.id !== id)`). -/
def deleteReading (id : Nat) (s : State) : State :=
  { s with readings := s.readings.filter (fun r => r.id != id) }

/-- `${r.timestamp},${r.reading}` — one CSV data row. -/
def csvRow (r : Reading) : String :=
  r.timestamp ++ "," ++ toString r.reading

/-- `Array.prototype.join('\n')` on a list of strings. -/
def joinNl : List String → String
  | [] => ""
  | [a] => a
  | a :: b :: rest => a ++ "\n" ++ joinNl (b :: rest)

/-- Split a character list at every newline (the line structure of a text:
`text.split('\n')` at the character level). -/
def splitNl : List Char → List (List Char)
  | [] => [[]]
  | c :: cs =>
    if c = '\n' then [] :: splitNl cs
    else
      match splitNl cs with
      | [] => [[c]]
      | l :: ls => (c :: l) :: ls

/-- The lines of a string, split at every `'\n'`. -/
def csvLines (s : String) : List (List Char) := splitNl s.data

namespace Part000

/-- Error-message classification of the catch block,
`src/unnamed/part_000` lines 74-84 (`err.message || 'Unknown error occurred'`:
an absent/empty message falls back to the unknown-error wording). -/
def classify (e : JsError) : String :=
  "Error accessing camera: " ++
    (if e.name = "NotAllowedError" then
      "Camera permission denied. Please allow camera access."
    else if e.name = "NotFoundError" then
      "No camera found on this device."
    else if e.name = "NotReadableError" then
      "Camera is already in use by another application."
    else if e.msg = "" then "Unknown error occurred" else e.msg)

/-- The catch block of `startCamera` in `part_000` (lines 73-97): store the
classified message, leave scanning mode, stop and drop any held stream,
detach the preview. -/
def onStartErr (s : State) (e : JsError) : State :=
  let s1 := { s with error := some (classify e), isScanning := false }
  let s2 := match s1.streamRef with
    | some sid => { s1 with hw := s1.hw.stopTracks sid, streamRef := none }
    | none => s1
  { s2 with videoRef := s2.videoRef.map (fun v => { v with srcObject := none }) }

/-- Lines 24-26 of `part_000`: `setError(null); setCapturedImage(null);
setOcrResult('')`. -/
def clearTransient (s : State) : State :=
  { s with error := none, capturedImage := none, ocrResult := "" }

/-- State after the `getUserMedia` of `part_000` succeeded: transient state
cleared, any previously held stream's tracks stopped, a fresh stream held. -/
def acquired (s : State) (k : Nat) : State :=
  acquire (releaseHeld (clearTransient s)) k

/-- State after `videoRef.current.srcObject = stream` in `part_000`. -/
def bound (s : State) (k : Nat) : State :=
  bindPreview (acquired s k)

/-- State after `onloadedmetadata` fired within the 5000 ms bound. -/
def ready (s : State) (k w h : Nat) : State :=
  setDims (bound s k) w h

/-- `startCamera` of `src/unnamed/part_000` (lines 22-98): clear transient
state, preflight checks, release any previously held stream, acquire a fresh
one, bind it to the preview, wait for metadata bounded by the 5000 ms timer,
then play. Every `throw` routes through `onStartErr`. -/
def startCamera (s : State) (env : StartEnv) : State :=
  if ¬ env.apiSupported then
    onStartErr (clearTransient s) ⟨"Error", "Camera API is not supported in this browser"⟩
  else if ¬ env.secureContext then
    onStartErr (clearTransient s) ⟨"Error", "Camera access requires HTTPS (except on localhost)"⟩
  else
    match env.gum with
    | .err e => onStartErr (releaseHeld (clearTransient s)) e
    | .ok k =>
      if ¬ env.videoPresent then
        onStartErr (acquired s k) ⟨"Error", "Video element not found"⟩
      else if env.videoErr then
        onStartErr (bound s k) ⟨"", ""⟩
      else
        match env.metadataAt with
        | none => onStartErr (bound s k) ⟨"Error", "Video stream timed out"⟩
        | some (t, w, h) =>
          if 5000 < t then
            onStartErr (bound s k) ⟨"Error", "Video stream timed out"⟩
          else
            match env.playErr with
            | some e => onStartErr (ready s k w h) e
            | none => { ready s k w h with isScanning := true }

/-- `captureAndProcess` of `part_000` (lines 111-151), instrumented with an
event trace. The readiness guard (`!videoRef.current ||
!videoRef.current.videoWidth`) only records the not-ready error; past it, the
frame is drawn and encoded, the recognizer delay elapses (advancing the
clock), and the `finally` block always runs `stopCamera` last. `env.ok`
selects between the try body completing and the catch path. -/
def captureAndProcessT (s : State) (env : CaptureEnv) : State × List Ev :=
  match s.videoRef with
  | none => ({ s with error := some "Camera not ready. Please try again." }, [])
  | some v =>
    if v.videoWidth = 0 then
      ({ s with error := some "Camera not ready. Please try again." }, [])
    else
      let s1 := { s with isProcessing := true, error := none }
      let imageData :=
        "jpeg0.8:" ++ toString v.videoWidth ++ "x" ++ toString v.videoHeight
      let s2 := { s1 with capturedImage := some imageData }
      let s3 := { s2 with clock := s2.clock + 1000 + env.drift }
      if env.ok then
        let value := env.random % 100000
        let newReading : Reading :=
          { id := s3.clock, reading := value, timestamp := env.ts,
            imageSrc := imageData }
        let s4 := { s3 with ocrResult := toString value, readings := newReading :: s3.readings }
        (stopCamera { s4 with isProcessing := false },
         [.drew, .recognized true, .appended, .streamStopped])
      else
        let s4 := { s3 with error := some "Failed to capture and process image: Unknown error" }
        (stopCamera { s4 with isProcessing := false },
         [.drew, .recognized false, .streamStopped])

/-- `captureAndProcess` of `part_000`, state part. -/
def captureAndProcess (s : State) (env : CaptureEnv) : State :=
  (captureAndProcessT s env).1

/-- `exportReadings` of `part_000` (lines 157-164): push the header and one
row per record into an array, then `join('\n')`. -/
def exportText (readings : List Reading) : String :=
  joinNl ("Timestamp,Reading" :: readings.map csvRow)

end Part000

namespace OcrJs

/-- The result of an `async` invocation of `startCamera` in `src/src/ocr.js`:
either it runs to completion, or it suspends forever on the metadata promise
(which has no timeout and no reject path), leaving the state as of the
suspension point. -/
inductive StartResult where
  | done (s : State)
  | hung (s : State)
  deriving DecidableEq

/-- The component state as of completion or suspension. -/
def StartResult.state : StartResult → State
  | .done s => s
  | .hung s => s

/-- Whether the invocation suspended forever. -/
def StartResult.isHung : StartResult → Bool
  | .done _ => false
  | .hung _ => true

/-- The catch block of `startCamera` in `ocr.js` (lines 67-71): store
`Error accessing camera: ${err.message}` and leave scanning mode.
It does not release any acquired stream. -/
def onStartErr (s : State) (e : JsError) : State :=
  { s with error := some ("Error accessing camera: " ++ e.msg),
           isScanning := false }

/-- Line 42 of `ocr.js`: `setError(null)`. -/
def clearErr (s : State) : State := { s with error := none }

/-- State after the `getUserMedia` of `ocr.js` succeeded: no release of a
previously held stream — the old handle is simply overwritten. -/
def acquired (s : State) (k : Nat) : State := acquire (clearErr s) k

/-- State after `videoRef.current.srcObject = stream` in `ocr.js`. -/
def bound (s : State) (k : Nat) : State := bindPreview (acquired s k)

/-- State after `onloadedmetadata` fired (no time bound in `ocr.js`). -/
def ready (s : State) (k w h : Nat) : State := setDims (bound s k) w h

/-- `startCamera` of `src/src/ocr.js` (lines 40-72): acquire a stream
(without releasing a previously held one), bind it to the preview, await
`onloadedmetadata` with no timeout (if metadata never fires the invocation
hangs), then play. -/
def startCamera (s : State) (env : StartEnv) : StartResult :=
  match env.gum with
  | .err e => .done (onStartErr (clearErr s) e)
  | .ok k =>
    if ¬ env.videoPresent then
      .done (onStartErr (acquired s k) ⟨"Error", "Video element not initialized"⟩)
    else
      match env.metadataAt with
      | none => .hung (bound s k)
      | some (_, w, h) =>
        match env.playErr with
        | some e => .done (onStartErr (ready s k w h) e)
        | none => .done { ready s k w h with isScanning := true }

/-- `captureAndProcess` of `ocr.js` (lines 85-119), instrumented with an
event trace. The only guard is `if (!videoRef.current) return;` — it sets no
error and there is no check of the decoded dimensions. Past it, the frame is
drawn (whatever the dimensions), the recognizer delay elapses, and
`stopCamera` runs last on both the try and catch paths. -/
def captureAndProcessT (s : State) (env : CaptureEnv) : State × List Ev :=
  match s.videoRef with
  | none => (s, [])
  | some v =>
    let s1 := { s with isProcessing := true }
    let imageData :=
      "jpeg:" ++ toString v.videoWidth ++ "x" ++ toString v.videoHeight
    let s2 := { s1 with capturedImage := some imageData }
    let s3 := { s2 with clock := s2.clock + 1000 + env.drift }
    if env.ok then
      let value := env.random % 100000
      let newReading : Reading :=
        { id := s3.clock, reading := value, timestamp := env.ts,
          imageSrc := imageData }
      let s4 := { s3 with ocrResult := toString value, readings := newReading :: s3.readings }
      (stopCamera { s4 with isProcessing := false },
       [.drew, .recognized true, .appended, .streamStopped])
    else
      let s4 := { s3 with error := some "Error processing image - please try again" }
      (stopCamera { s4 with isProcessing := false },
       [.drew, .recognized false, .streamStopped])

/-- `captureAndProcess` of `ocr.js`, state part. -/
def captureAndProcess (s : State) (env : CaptureEnv) : State :=
  (captureAndProcessT s env).1

/-- `exportReadings` of `ocr.js` (lines 125-129): the data rows are joined
with `'\n'` and the blob is `` `Timestamp,Reading\n${csv}` `` — the header is
always followed by a `'\n'`, even when there are no rows. -/
def exportText (readings : List Reading) : String :=
  "Timestamp,Reading\n" ++ joinNl (readings.map csvRow)

end OcrJs

/-- A user intent dispatched to the component. -/
inductive Op where
  | start (env : StartEnv)
  | stop
  | capture (env : CaptureEnv)
  | delete (id : Nat)

/-- One dispatched intent, `part_000` variant. -/
def Part000.step (s : State) : Op → State
  | .start env => Part000.startCamera s env
  | .stop => stopCamera s
  | .capture env => Part000.captureAndProcess s env
  | .delete id => deleteReading id s

/-- A whole session from mount, `part_000` variant. -/
def Part000.run (ops : List Op) : State := ops.foldl Part000.step initState

/-- One dispatched intent, `ocr.js` variant. A `startCamera` that hangs
leaves the state as of its suspension point (the rest of that invocation
never executes; later intents still run). -/
def OcrJs.step (s : State) : Op → State
  | .start env => (OcrJs.startCamera s env).state
  | .stop => stopCamera s
  | .capture env => OcrJs.captureAndProcess s env
  | .delete id => deleteReading id s

/-- A whole session from mount, `ocr.js` variant. -/
def OcrJs.run (ops : List Op) : State := ops.foldl OcrJs.step initState

/-- Every stream of the hardware is inactive. -/
def State.noActive (s : State) : Prop :=
  ∀ st ∈ s.hw.streams, st.isActive = false

/-! Concrete inputs used to instantiate and refute the claims. -/

/-- A fully successful start: one-track stream, metadata at 100 ms, 640×480. -/
def envOk : StartEnv := ⟨true, true, .ok 1, true, false, some (100, 640, 480), none⟩

/-- A start that fails at `video.play()` after the stream was acquired. -/
def envPlayFail : StartEnv :=
  ⟨true, true, .ok 1, true, false, some (100, 640, 480), some ⟨"NotAllowedError", "Permission denied"⟩⟩

/-- A start whose stream never produces metadata. -/
def envNoMeta : StartEnv := ⟨true, true, .ok 1, true, false, none, none⟩

/-- A start whose metadata reports zero decoded dimensions. -/
def envZeroDim : StartEnv := ⟨true, true, .ok 1, true, false, some (100, 0, 0), none⟩

/-- A capture whose recognizer resolves with value 42. -/
def cenvOk : CaptureEnv := ⟨0, 42, true, "ts"⟩

/-- A sample stored record. -/
def sampleReading : Reading := ⟨1, 42, "t1", "img"⟩

/-- A second sample record with a different id. -/
def sampleReading2 : Reading := ⟨2, 43, "t2", "img2"⟩

/-- A session state holding one record. -/
def oneRecState : State := { initState with readings := [sampleReading] }

/-- A session state holding two records (newest first). -/
def twoRecState : State := { initState with readings := [sampleReading2, sampleReading] }

/-- Invariant of the ReadingList: ids strictly decreasing from the front
(newest-first), and all ids at most the current clock. -/
structure IdInv (s : State) : Prop where
  sorted : s.readings.Pairwise (fun a b => b.id < a.id)
  bounded : ∀ r ∈ s.readings, r.id ≤ s.clock

/-- Full session invariant (`part_000` variant): ReadingList invariant plus
the hardware-ownership discipline — ids of handed-out streams are below the
allocator's next id, the held handle (if any) is one of them, every active
stream is the held one, and no two streams share an id. -/
structure Inv (s : State) extends IdInv s : Prop where
  sidBound : ∀ st ∈ s.hw.streams, st.sid < s.hw.nextSid
  refBound : ∀ sid, s.streamRef = some sid → sid < s.hw.nextSid
  activeRef : ∀ st ∈ s.hw.streams, st.isActive = true → s.streamRef = some st.sid
  sidsNodup : (s.hw.streams.map HWStream.sid).Nodup

/-! ## Hardware lemmas -/

theorem HWStream.stopAll_sid (st : HWStream) : st.stopAll.sid = st.sid := rfl

theorem HWStream.stopAll_not_active (st : HWStream) : st.stopAll.isActive = false := by
  simp [HWStream.stopAll, HWStream.isActive]

theorem Hardware.stopTracks_nextSid (hw : Hardware) (sid : Nat) :
    (hw.stopTracks sid).nextSid = hw.nextSid := rfl

theorem Hardware.stopTracks_map_sid (hw : Hardware) (sid : Nat) :
    (hw.stopTracks sid).streams.map HWStream.sid = hw.streams.map HWStream.sid := by
  simp only [Hardware.stopTracks, List.map_map]
  refine List.map_congr_left (fun st _ => ?_)
  by_cases h : st.sid = sid <;> simp [h, HWStream.stopAll]

theorem Hardware.mem_stopTracks {hw : Hardware} {sid : Nat} {st' : HWStream}
    (h : st' ∈ (hw.stopTracks sid).streams) :
    ∃ st ∈ hw.streams, st' = if st.sid = sid then st.stopAll else st := by
  simp only [Hardware.stopTracks, List.mem_map] at h
  obtain ⟨st, hmem, rfl⟩ := h
  exact ⟨st, hmem, rfl⟩

theorem noActive_stopTracks {s : State} {sid : Nat}
    (hact : ∀ st ∈ s.hw.streams, st.isActive = true → s.streamRef = some st.sid)
    (href : s.streamRef = some sid) :
    ∀ st' ∈ (s.hw.stopTracks sid).streams, st'.isActive = false := by
  intro st' hmem
  obtain ⟨st, hst, rfl⟩ := Hardware.mem_stopTracks hmem
  by_cases h : st.sid = sid
  · simp [h, HWStream.stopAll_not_active]
  · simp only [h, if_false]
    by_contra hne
    have : st.isActive = true := by
      cases hb : st.isActive
      · exact absurd hb hne
      · rfl
    have := hact st hst this
    rw [href] at this
    exact h (Option.some.inj this).symm

theorem noActive_of_ref_none {s : State}
    (hact : ∀ st ∈ s.hw.streams, st.isActive = true → s.streamRef = some st.sid)
    (href : s.streamRef = none) : s.noActive := by
  intro st hst
  cases hb : st.isActive
  · rfl
  · have := hact st hst hb
    rw [href] at this
    exact absurd this (by simp)

theorem Hardware.activeCount_eq_zero {hw : Hardware}
    (h : ∀ st ∈ hw.streams, st.isActive = false) : hw.activeCount = 0 := by
  simp only [Hardware.activeCount, List.length_eq_zero]
  exact List.filter_eq_nil_iff.mpr (fun st hst => by simp [h st hst])

/-! ## The session invariants -/

theorem IdInv.frameIds {s s' : State} (h : IdInv s) (hrd : s'.readings = s.readings)
    (hck : s.clock ≤ s'.clock) : IdInv s' := by
  refine ⟨by rw [hrd]; exact h.sorted, fun r hr => ?_⟩
  rw [hrd] at hr
  exact le_trans (h.bounded r hr) hck

theorem Inv.frameAll {s s' : State} (h : Inv s) (hhw : s'.hw = s.hw)
    (href : s'.streamRef = s.streamRef) (hrd : s'.readings = s.readings)
    (hck : s.clock ≤ s'.clock) : Inv s' := by
  refine ⟨h.toIdInv.frameIds hrd hck, ?_, ?_, ?_, ?_⟩
  · rw [hhw]; exact h.sidBound
  · rw [hhw, href]; exact h.refBound
  · rw [hhw, href]; exact h.activeRef
  · rw [hhw]; exact h.sidsNodup

theorem inv_initState : Inv initState := by
  refine ⟨⟨?_, ?_⟩, ?_, ?_, ?_, ?_⟩ <;> simp [initState]

/-- At most one stream is active when every active stream is the held one and
stream ids are distinct. -/
theorem activeCount_le_one {s : State}
    (hact : ∀ st ∈ s.hw.streams, st.isActive = true → s.streamRef = some st.sid)
    (hnd : (s.hw.streams.map HWStream.sid).Nodup) : s.hw.activeCount ≤ 1 := by
  unfold Hardware.activeCount
  cases hf : s.hw.streams.filter HWStream.isActive with
  | nil => simp
  | cons a t =>
    cases t with
    | nil => simp
    | cons b t' =>
      exfalso
      have ha : a ∈ s.hw.streams.filter HWStream.isActive := by rw [hf]; simp
      have hb : b ∈ s.hw.streams.filter HWStream.isActive := by rw [hf]; simp
      have ha' := List.mem_filter.mp ha
      have hb' := List.mem_filter.mp hb
      have hsa := hact a ha'.1 ha'.2
      have hsb := hact b hb'.1 hb'.2
      have hab : a.sid = b.sid := by
        have := hsa.symm.trans hsb
        exact Option.some.inj this
      have heq : a = b := List.inj_on_of_nodup_map hnd ha'.1 hb'.1 hab
      have hnd' : (s.hw.streams.filter HWStream.isActive).Nodup := by
        have : ((s.hw.streams.filter HWStream.isActive).map HWStream.sid).Nodup :=
          hnd.sublist ((List.filter_sublist _).map HWStream.sid)
        exact this.of_map
      rw [hf, heq] at hnd'
      simp at hnd'

/-! ## stopCamera lemmas -/

theorem stopCamera_streamRef (s : State) : (stopCamera s).streamRef = none := by
  unfold stopCamera
  cases h : s.streamRef <;> simp [h]

theorem stopCamera_isScanning (s : State) : (stopCamera s).isScanning = false := by
  unfold stopCamera
  cases h : s.streamRef <;> simp [h]

theorem stopCamera_error (s : State) : (stopCamera s).error = s.error := by
  unfold stopCamera
  cases h : s.streamRef <;> simp [h]

theorem stopCamera_readings (s : State) : (stopCamera s).readings = s.readings := by
  unfold stopCamera
  cases h : s.streamRef <;> simp [h]

theorem stopCamera_clock (s : State) : (stopCamera s).clock = s.clock := by
  unfold stopCamera
  cases h : s.streamRef <;> simp [h]

theorem stopCamera_hw_none {s : State} (h : s.streamRef = none) :
    (stopCamera s).hw = s.hw := by
  unfold stopCamera
  simp [h]

theorem stopCamera_hw_some {s : State} {sid : Nat} (h : s.streamRef = some sid) :
    (stopCamera s).hw = s.hw.stopTracks sid := by
  unfold stopCamera
  simp [h]

theorem stopCamera_videoRef (s : State) :
    ∀ v, (stopCamera s).videoRef = some v → v.srcObject = none := by
  intro v hv
  unfold stopCamera at hv
  cases h : s.streamRef <;> rw [h] at hv <;>
    (cases hv2 : s.videoRef <;> simp [hv2] at hv) <;> rw [← hv]

theorem stopCamera_noActive {s : State}
    (hact : ∀ st ∈ s.hw.streams, st.isActive = true → s.streamRef = some st.sid) :
    (stopCamera s).noActive := by
  intro st hst
  cases href : s.streamRef with
  | none =>
    rw [stopCamera_hw_none href] at hst
    exact noActive_of_ref_none hact href st hst
  | some sid =>
    rw [stopCamera_hw_some href] at hst
    exact noActive_stopTracks hact href st hst

theorem idInv_stopCamera {s : State} (h : IdInv s) : IdInv (stopCamera s) :=
  h.frameIds (stopCamera_readings s) (le_of_eq (stopCamera_clock s).symm)

theorem inv_stopCamera {s : State} (h : Inv s) : Inv (stopCamera s) := by
  refine ⟨idInv_stopCamera h.toIdInv, ?_, ?_, ?_, ?_⟩
  · intro st hst
    cases href : s.streamRef with
    | none =>
      rw [stopCamera_hw_none href] at hst ⊢
      exact h.sidBound st hst
    | some sid =>
      rw [stopCamera_hw_some href] at hst ⊢
      obtain ⟨st0, hst0, rfl⟩ := Hardware.mem_stopTracks hst
      rw [Hardware.stopTracks_nextSid]
      by_cases hs : st0.sid = sid
      · rw [if_pos hs]
        exact h.sidBound st0 hst0
      · rw [if_neg hs]
        exact h.sidBound st0 hst0
  · intro sid hsid
    rw [stopCamera_streamRef] at hsid
    exact absurd hsid (by simp)
  · intro st hst hactive
    have := stopCamera_noActive h.activeRef st hst
    rw [hactive] at this
    exact absurd this (by simp)
  · cases href : s.streamRef with
    | none => rw [stopCamera_hw_none href]; exact h.sidsNodup
    | some sid =>
      rw [stopCamera_hw_some href, Hardware.stopTracks_map_sid]
      exact h.sidsNodup

theorem stopCamera_stops {s : State} {sid : Nat} (href : s.streamRef = some sid) :
    ∀ st ∈ (stopCamera s).hw.streams, st.sid = sid → st.isActive = false := by
  intro st hst heq
  rw [stopCamera_hw_some href] at hst
  obtain ⟨st0, _, rfl⟩ := Hardware.mem_stopTracks hst
  by_cases hs : st0.sid = sid
  · rw [if_pos hs]
    exact HWStream.stopAll_not_active st0
  · rw [if_neg hs] at heq
    exact absurd heq hs

/-! ## Step-function lemmas -/

theorem hw_stopTracks_sidBound {s : State} (h : Inv s) (sid : Nat) :
    ∀ st ∈ (s.hw.stopTracks sid).streams, st.sid < s.hw.nextSid := by
  intro st hst
  obtain ⟨st0, hst0, rfl⟩ := Hardware.mem_stopTracks hst
  by_cases hs : st0.sid = sid
  · rw [if_pos hs]
    exact h.sidBound st0 hst0
  · rw [if_neg hs]
    exact h.sidBound st0 hst0

theorem releaseHeld_eq_none {s : State} (h : s.streamRef = none) : releaseHeld s = s := by
  unfold releaseHeld
  rw [h]

theorem releaseHeld_eq_some {s : State} {sid : Nat} (h : s.streamRef = some sid) :
    releaseHeld s = { s with hw := s.hw.stopTracks sid } := by
  unfold releaseHeld
  rw [h]

theorem inv_releaseHeld {s : State} (h : Inv s) : Inv (releaseHeld s) := by
  cases href : s.streamRef with
  | none => rw [releaseHeld_eq_none href]; exact h
  | some sid =>
    rw [releaseHeld_eq_some href]
    refine ⟨h.toIdInv.frameIds rfl le_rfl, hw_stopTracks_sidBound h sid, ?_, ?_, ?_⟩
    · intro sid' hsid'
      rw [Hardware.stopTracks_nextSid]
      exact h.refBound sid' hsid'
    · intro st hst hactive
      have := noActive_stopTracks h.activeRef href st hst
      rw [hactive] at this
      exact absurd this (by simp)
    · rw [Hardware.stopTracks_map_sid]
      exact h.sidsNodup

theorem noActive_releaseHeld {s : State}
    (hact : ∀ st ∈ s.hw.streams, st.isActive = true → s.streamRef = some st.sid) :
    (releaseHeld s).noActive := by
  cases href : s.streamRef with
  | none =>
    rw [releaseHeld_eq_none href]
    exact noActive_of_ref_none hact href
  | some sid =>
    rw [releaseHeld_eq_some href]
    exact noActive_stopTracks hact href

theorem inv_acquire {s : State} (h : Inv s) (hna : s.noActive) (k : Nat) :
    Inv (acquire s k) := by
  refine ⟨h.toIdInv.frameIds rfl le_rfl, ?_, ?_, ?_, ?_⟩
  · intro st hst
    simp only [acquire, Hardware.alloc, List.mem_append, List.mem_singleton] at hst
    rcases hst with hst | rfl
    · exact Nat.lt_succ_of_lt (h.sidBound st hst)
    · exact Nat.lt_succ_self _
  · intro sid hsid
    have : sid = s.hw.nextSid := (Option.some.inj hsid).symm
    rw [this]
    exact Nat.lt_succ_self _
  · intro st hst hactive
    simp only [acquire, Hardware.alloc, List.mem_append, List.mem_singleton] at hst
    rcases hst with hst | rfl
    · rw [hna st hst] at hactive
      exact absurd hactive (by simp)
    · rfl
  · simp only [acquire, Hardware.alloc, List.map_append, List.map_cons, List.map_nil]
    refine List.Nodup.append h.sidsNodup (List.nodup_singleton _) ?_
    intro a ha hb
    rw [List.mem_singleton] at hb
    subst hb
    obtain ⟨st, hst, hsid⟩ := List.mem_map.mp ha
    have := h.sidBound st hst
    rw [hsid] at this
    exact absurd this (Nat.lt_irrefl _)

theorem inv_bindPreview {s : State} (h : Inv s) : Inv (bindPreview s) :=
  h.frameAll rfl rfl rfl le_rfl

theorem inv_setDims {s : State} (h : Inv s) (w hh : Nat) : Inv (setDims s w hh) :=
  h.frameAll rfl rfl rfl le_rfl

theorem inv_scanOn {s : State} (h : Inv s) : Inv { s with isScanning := true } :=
  h.frameAll rfl rfl rfl le_rfl

/-! ## `part_000` startCamera invariants -/

namespace Part000

theorem onStartErr_eq_none {s : State} {e : JsError} (h : s.streamRef = none) :
    onStartErr s e = { s with error := some (classify e), isScanning := false, videoRef := s.videoRef.map (fun v => { v with srcObject := none }) } := by
  unfold onStartErr
  simp [h]

theorem onStartErr_eq_some {s : State} {e : JsError} {sid : Nat}
    (h : s.streamRef = some sid) :
    onStartErr s e = { s with error := some (classify e), isScanning := false, hw := s.hw.stopTracks sid, streamRef := none, videoRef := s.videoRef.map (fun v => { v with srcObject := none }) } := by
  unfold onStartErr
  simp [h]

theorem onStartErr_error (s : State) (e : JsError) :
    (onStartErr s e).error = some (classify e) := by
  cases h : s.streamRef
  · rw [onStartErr_eq_none h]
  · rw [onStartErr_eq_some h]

theorem onStartErr_isScanning (s : State) (e : JsError) :
    (onStartErr s e).isScanning = false := by
  cases h : s.streamRef
  · rw [onStartErr_eq_none h]
  · rw [onStartErr_eq_some h]

theorem onStartErr_streamRef (s : State) (e : JsError) :
    (onStartErr s e).streamRef = none := by
  cases h : s.streamRef
  · rw [onStartErr_eq_none h]
    exact h
  · rw [onStartErr_eq_some h]

theorem onStartErr_readings (s : State) (e : JsError) :
    (onStartErr s e).readings = s.readings := by
  cases h : s.streamRef
  · rw [onStartErr_eq_none h]
  · rw [onStartErr_eq_some h]

theorem onStartErr_clock (s : State) (e : JsError) :
    (onStartErr s e).clock = s.clock := by
  cases h : s.streamRef
  · rw [onStartErr_eq_none h]
  · rw [onStartErr_eq_some h]

theorem onStartErr_noActive {s : State} (e : JsError)
    (hact : ∀ st ∈ s.hw.streams, st.isActive = true → s.streamRef = some st.sid) :
    (onStartErr s e).noActive := by
  intro st hst
  cases h : s.streamRef with
  | none =>
    rw [onStartErr_eq_none h] at hst
    exact noActive_of_ref_none hact h st hst
  | some sid =>
    rw [onStartErr_eq_some h] at hst
    exact noActive_stopTracks hact h st hst

theorem inv_onStartErr {s : State} (h : Inv s) (e : JsError) : Inv (onStartErr s e) := by
  cases href : s.streamRef with
  | none =>
    rw [onStartErr_eq_none href]
    exact h.frameAll rfl rfl rfl le_rfl
  | some sid =>
    rw [onStartErr_eq_some href]
    refine ⟨h.toIdInv.frameIds rfl le_rfl, hw_stopTracks_sidBound h sid, ?_, ?_, ?_⟩
    · intro sid' hsid'
      exact absurd hsid' (by simp)
    · intro st hst hactive
      have := noActive_stopTracks h.activeRef href st hst
      rw [hactive] at this
      exact absurd this (by simp)
    · rw [Hardware.stopTracks_map_sid]
      exact h.sidsNodup

theorem inv_clearTransient {s : State} (h : Inv s) : Inv (clearTransient s) :=
  h.frameAll rfl rfl rfl le_rfl

theorem inv_acquired {s : State} (h : Inv s) (k : Nat) : Inv (acquired s k) :=
  inv_acquire (inv_releaseHeld (inv_clearTransient h))
    (noActive_releaseHeld (inv_clearTransient h).activeRef) k

theorem inv_bound {s : State} (h : Inv s) (k : Nat) : Inv (bound s k) :=
  inv_bindPreview (inv_acquired h k)

theorem inv_ready {s : State} (h : Inv s) (k w hh : Nat) : Inv (ready s k w hh) :=
  inv_setDims (inv_bound h k) w hh

theorem inv_startCamera {s : State} (h : Inv s) (env : StartEnv) :
    Inv (startCamera s env) := by
  unfold startCamera
  repeat' split
  all_goals
    first
      | exact inv_onStartErr (inv_clearTransient h) _
      | exact inv_onStartErr (inv_releaseHeld (inv_clearTransient h)) _
      | exact inv_onStartErr (inv_acquired h _) _
      | exact inv_onStartErr (inv_bound h _) _
      | exact inv_onStartErr (inv_ready h _ _ _) _
      | exact inv_scanOn (inv_ready h _ _ _)

end Part000

theorem idInv_deleteReading {s : State} (h : IdInv s) (id : Nat) :
    IdInv (deleteReading id s) := by
  refine ⟨h.sorted.sublist (List.filter_sublist _), ?_⟩
  intro r hr
  exact h.bounded r (List.mem_of_mem_filter hr)

theorem inv_deleteReading {s : State} (h : Inv s) (id : Nat) :
    Inv (deleteReading id s) :=
  ⟨idInv_deleteReading h.toIdInv id, h.sidBound, h.refBound, h.activeRef, h.sidsNodup⟩

namespace Part000

theorem inv_captureAndProcess {s : State} (h : Inv s) (env : CaptureEnv) :
    Inv (captureAndProcess s env) := by
  unfold captureAndProcess captureAndProcessT
  split
  · exact h.frameAll rfl rfl rfl le_rfl
  next v heq =>
    split
    · exact h.frameAll rfl rfl rfl le_rfl
    next hw0 =>
      dsimp only
      split
      next hok =>
        refine inv_stopCamera ⟨⟨?_, ?_⟩, h.sidBound, h.refBound, h.activeRef, h.sidsNodup⟩
        · refine List.Pairwise.cons (fun b hb => ?_) h.toIdInv.sorted
          have := h.toIdInv.bounded b hb
          show b.id < s.clock + 1000 + env.drift
          omega
        · intro r hr
          rcases List.mem_cons.mp hr with rfl | hr
          · exact le_rfl
          · have := h.toIdInv.bounded r hr
            show r.id ≤ s.clock + 1000 + env.drift
            omega
      next hok =>
        refine inv_stopCamera (h.frameAll rfl rfl rfl ?_)
        show s.clock ≤ s.clock + 1000 + env.drift
        omega

theorem inv_step {s : State} (h : Inv s) (op : Op) : Inv (step s op) := by
  cases op with
  | start env => exact inv_startCamera h env
  | stop => exact inv_stopCamera h
  | capture env => exact inv_captureAndProcess h env
  | delete id => exact inv_deleteReading h id

theorem inv_foldl : ∀ (ops : List Op) (s : State), Inv s → Inv (ops.foldl step s)
  | [], _, h => h
  | op :: ops, s, h => inv_foldl ops (step s op) (inv_step h op)

theorem inv_run (ops : List Op) : Inv (run ops) :=
  inv_foldl ops initState inv_initState

end Part000

namespace OcrJs

theorem idInv_startCamera {s : State} (h : IdInv s) (env : StartEnv) :
    IdInv ((startCamera s env).state) := by
  unfold startCamera
  repeat' split
  all_goals exact h.frameIds rfl le_rfl

theorem idInv_captureAndProcess {s : State} (h : IdInv s) (env : CaptureEnv) :
    IdInv (captureAndProcess s env) := by
  unfold captureAndProcess captureAndProcessT
  split
  · exact h
  next v heq =>
    dsimp only
    split
    next hok =>
      refine idInv_stopCamera ⟨?_, ?_⟩
      · refine List.Pairwise.cons (fun b hb => ?_) h.sorted
        have := h.bounded b hb
        show b.id < s.clock + 1000 + env.drift
        omega
      · intro r hr
        rcases List.mem_cons.mp hr with rfl | hr
        · exact le_rfl
        · have := h.bounded r hr
          show r.id ≤ s.clock + 1000 + env.drift
          omega
    next hok =>
      refine idInv_stopCamera (h.frameIds rfl ?_)
      show s.clock ≤ s.clock + 1000 + env.drift
      omega

theorem idInv_step {s : State} (h : IdInv s) (op : Op) : IdInv (step s op) := by
  cases op with
  | start env => exact idInv_startCamera h env
  | stop => exact idInv_stopCamera h
  | capture env => exact idInv_captureAndProcess h env
  | delete id => exact idInv_deleteReading h id

theorem idInv_foldl : ∀ (ops : List Op) (s : State), IdInv s → IdInv (ops.foldl step s)
  | [], _, h => h
  | op :: ops, s, h => idInv_foldl ops (step s op) (idInv_step h op)

theorem idInv_run (ops : List Op) : IdInv (run ops) :=
  idInv_foldl ops initState inv_initState.toIdInv

end OcrJs

/-! ## Further helper lemmas -/

theorem nodup_ids_of_sorted {rs : List Reading}
    (h : rs.Pairwise (fun a b => b.id < a.id)) : (rs.map Reading.id).Nodup := by
  rw [List.Nodup, List.pairwise_map]
  exact h.imp (fun hlt => Nat.ne_of_gt hlt)

theorem activeRef_acquire {s : State} (hna : s.noActive) (k : Nat) :
    ∀ st ∈ (acquire s k).hw.streams, st.isActive = true →
      (acquire s k).streamRef = some st.sid := by
  intro st hst hactive
  simp only [acquire, Hardware.alloc, List.mem_append, List.mem_singleton] at hst
  rcases hst with hst | rfl
  · rw [hna st hst] at hactive
    exact absurd hactive (by simp)
  · rfl

theorem releaseHeld_error (s : State) : (releaseHeld s).error = s.error := by
  cases h : s.streamRef
  · rw [releaseHeld_eq_none h]
  · rw [releaseHeld_eq_some h]

theorem stopCamera_idem (s : State) : stopCamera (stopCamera s) = stopCamera s := by
  unfold stopCamera
  cases h : s.streamRef <;> cases hv : s.videoRef <;> simp [h, hv]

theorem stopCamera_idle_noop {s : State} (h1 : s.streamRef = none)
    (h2 : s.isScanning = false) (h3 : ∀ v, s.videoRef = some v → v.srcObject = none) :
    stopCamera s = s := by
  obtain ⟨hw, isc, isp, ci, ocr, rd, er, vr, sr, ck⟩ := s
  simp only at h1 h2 h3
  subst h1
  subst h2
  unfold stopCamera
  cases vr with
  | none => rfl
  | some v =>
    have hv := h3 v rfl
    obtain ⟨so, vw, vh⟩ := v
    simp only at hv
    subst hv
    rfl

namespace Part000

/-- On the success path of `part_000`'s `startCamera` no error is stored:
it was cleared at the top and never reassigned. -/
theorem ready_error (s : State) (k w hh : Nat) : (ready s k w hh).error = none := by
  show (releaseHeld (clearTransient s)).error = none
  rw [releaseHeld_error]
  rfl

/-- The state published by a fully successful `startCamera` stores no error. -/
theorem start_success_error (s : State) (k w hh : Nat) :
    ({ ready s k w hh with isScanning := true } : State).error = none :=
  ready_error s k w hh

/-- Every `startCamera` invocation of `part_000` either succeeds (no error)
or lands in the catch block `onStartErr`, applied to a state that inherits
the active-streams-are-held discipline. -/
theorem start_fail_cases (s : State) (env : StartEnv) :
    (startCamera s env).error = none ∨
    ∃ s' e, startCamera s env = onStartErr s' e ∧
      ((∀ st ∈ s.hw.streams, st.isActive = true → s.streamRef = some st.sid) →
        ∀ st ∈ s'.hw.streams, st.isActive = true → s'.streamRef = some st.sid) := by
  unfold startCamera
  repeat' split
  all_goals
    first
      | exact .inl (start_success_error s _ _ _)
      | exact .inr ⟨_, _, rfl, fun hact => hact⟩
      | exact .inr ⟨_, _, rfl, fun hact st hst hactive => by
          have hna := noActive_releaseHeld (s := clearTransient s) hact st hst
          rw [hactive] at hna
          exact absurd hna (by simp)⟩
      | exact .inr ⟨_, _, rfl, fun hact =>
          activeRef_acquire (noActive_releaseHeld (s := clearTransient s) hact) _⟩

/-- Under a passing preflight, a live `getUserMedia`, a present video element
and no element error, a first frame that is late (beyond 5000 ms) or absent
makes `startCamera` of `part_000` land in the catch block with the dedicated
timeout error. -/
theorem start_timeout_eq (s : State) (env : StartEnv) (hapi : env.apiSupported = true)
    (hsec : env.secureContext = true) (k : Nat) (hgum : env.gum = .ok k)
    (hvp : env.videoPresent = true) (hverr : env.videoErr = false)
    (hmeta : env.metadataAt = none ∨
      ∃ t w hh, env.metadataAt = some (t, w, hh) ∧ 5000 < t) :
    startCamera s env = onStartErr (bound s k) ⟨"Error", "Video stream timed out"⟩ := by
  unfold startCamera
  rcases hmeta with hm | ⟨t, w, hh, hm, ht⟩
  · simp [hapi, hsec, hgum, hvp, hverr, hm]
  · simp [hapi, hsec, hgum, hvp, hverr, hm, ht]

theorem capture_notReady {s : State} (env : CaptureEnv)
    (hv : s.videoRef = none ∨ ∃ v, s.videoRef = some v ∧ v.videoWidth = 0) :
    captureAndProcess s env = { s with error := some "Camera not ready. Please try again." } := by
  unfold captureAndProcess captureAndProcessT
  rcases hv with hv | ⟨v, hv, hw0⟩
  · rw [hv]
  · rw [hv]
    simp [hw0]

theorem p0_capture_ok_front {s : State} {v : VideoEl} {env : CaptureEnv}
    (hv : s.videoRef = some v) (hw0 : v.videoWidth ≠ 0) (hok : env.ok = true) :
    ∃ r : Reading, (captureAndProcess s env).readings = r :: s.readings := by
  unfold captureAndProcess captureAndProcessT
  rw [hv]
  dsimp only
  rw [if_neg hw0, if_pos hok]
  exact ⟨_, stopCamera_readings _⟩

theorem p0_capture_trace {s : State} {v : VideoEl} (env : CaptureEnv)
    (hv : s.videoRef = some v) (hw0 : v.videoWidth ≠ 0) :
    (captureAndProcessT s env).2 =
      (if env.ok then [Ev.drew, Ev.recognized true, Ev.appended]
       else [Ev.drew, Ev.recognized false]) ++ [Ev.streamStopped] := by
  unfold captureAndProcessT
  rw [hv]
  cases hok : env.ok <;> simp [hw0, hok]

theorem p0_capture_post {s : State} {v : VideoEl} (env : CaptureEnv)
    (hv : s.videoRef = some v) (hw0 : v.videoWidth ≠ 0) :
    (captureAndProcessT s env).1.streamRef = none ∧
    (captureAndProcessT s env).1.isScanning = false := by
  unfold captureAndProcessT
  rw [hv]
  cases hok : env.ok <;>
    simp [hw0, hok, stopCamera_streamRef, stopCamera_isScanning]

end Part000

namespace OcrJs

theorem js_capture_ok_front {s : State} {v : VideoEl} {env : CaptureEnv}
    (hv : s.videoRef = some v) (hok : env.ok = true) :
    ∃ r : Reading, (captureAndProcess s env).readings = r :: s.readings := by
  unfold captureAndProcess captureAndProcessT
  rw [hv]
  dsimp only
  rw [if_pos hok]
  exact ⟨_, stopCamera_readings _⟩

theorem js_capture_trace {s : State} {v : VideoEl} (env : CaptureEnv)
    (hv : s.videoRef = some v) :
    (captureAndProcessT s env).2 =
      (if env.ok then [Ev.drew, Ev.recognized true, Ev.appended]
       else [Ev.drew, Ev.recognized false]) ++ [Ev.streamStopped] := by
  unfold captureAndProcessT
  rw [hv]
  cases hok : env.ok <;> simp [hok]

theorem js_capture_post {s : State} {v : VideoEl} (env : CaptureEnv)
    (hv : s.videoRef = some v) :
    (captureAndProcessT s env).1.streamRef = none ∧
    (captureAndProcessT s env).1.isScanning = false := by
  unfold captureAndProcessT
  rw [hv]
  cases hok : env.ok <;>
    simp [hok, stopCamera_streamRef, stopCamera_isScanning]

end OcrJs

/-! ## Line-structure lemmas for the CSV export -/

theorem data_append (s t : String) : (s ++ t).data = s.data ++ t.data :=
  String.data_append s t

theorem splitNl_no_nl : ∀ l : List Char, '\n' ∉ l → splitNl l = [l] := by
  intro l h
  induction l with
  | nil => rfl
  | cons c cs ih =>
    have hc : ¬ c = '\n' := fun hc => h (hc ▸ List.mem_cons_self c cs)
    have hcs : '\n' ∉ cs := fun hm => h (List.mem_cons_of_mem c hm)
    simp only [splitNl]
    rw [if_neg hc, ih hcs]

theorem splitNl_append : ∀ (a b : List Char), '\n' ∉ a →
    splitNl (a ++ '\n' :: b) = a :: splitNl b := by
  intro a
  induction a with
  | nil =>
    intro b _
    rw [List.nil_append]
    simp [splitNl]
  | cons c cs ih =>
    intro b h
    have hc : ¬ c = '\n' := fun hc => h (hc ▸ List.mem_cons_self c cs)
    have hcs : '\n' ∉ cs := fun hm => h (List.mem_cons_of_mem c hm)
    rw [List.cons_append]
    simp only [splitNl]
    rw [if_neg hc, ih b hcs]

theorem joinNl_lines : ∀ (l : List String) (x : String), '\n' ∉ x.data →
    (∀ y ∈ l, '\n' ∉ y.data) →
    splitNl (joinNl (x :: l)).data = x.data :: l.map String.data := by
  intro l
  induction l with
  | nil =>
    intro x hx _
    exact splitNl_no_nl x.data hx
  | cons y l ih =>
    intro x hx hl
    have hy : '\n' ∉ y.data := hl y (List.mem_cons_self y l)
    have hl' : ∀ z ∈ l, '\n' ∉ z.data := fun z hz => hl z (List.mem_cons_of_mem y hz)
    have heq : joinNl (x :: y :: l) = x ++ "\n" ++ joinNl (y :: l) := rfl
    rw [heq, data_append, data_append]
    have hnl : ("\n" : String).data = ['\n'] := rfl
    rw [hnl, List.append_assoc, List.singleton_append, splitNl_append x.data _ hx,
      ih y hy hl', List.map_cons]

/-! ## The claims -/

/-- Claim C8: `stopCamera` releases every constituent track of the active
stream, detaches the stream from the preview surface, transitions the session
to idle, raises no error, is idempotent, and is a no-op on an idle session. -/
theorem C8_stop_releases_detaches_idempotent :
    ∀ s : State,
      (stopCamera s).isScanning = false ∧
      (stopCamera s).streamRef = none ∧
      (stopCamera s).error = s.error ∧
      (∀ v, (stopCamera s).videoRef = some v → v.srcObject = none) ∧
      (∀ sid, s.streamRef = some sid →
        ∀ st ∈ (stopCamera s).hw.streams, st.sid = sid → st.isActive = false) ∧
      stopCamera (stopCamera s) = stopCamera s ∧
      (s.streamRef = none → s.isScanning = false →
        (∀ v, s.videoRef = some v → v.srcObject = none) → stopCamera s = s) := by
  intro s
  exact ⟨stopCamera_isScanning s, stopCamera_streamRef s, stopCamera_error s,
    stopCamera_videoRef s, fun _ h => stopCamera_stops h, stopCamera_idem s,
    fun h1 h2 h3 => stopCamera_idle_noop h1 h2 h3⟩

/-- Claim C8 (witness): `stopCamera` on the idle initial state is the
identity, and after a successful start it stops the held stream's track. -/
theorem C8_witness :
    stopCamera initState = initState ∧
    HWStream.isActive ⟨0, [false]⟩ = false :=
  ⟨(C8_stop_releases_detaches_idempotent initState).2.2.2.2.2.2 rfl rfl
      (fun v hv => by simp [initState] at hv),
   (C8_stop_releases_detaches_idempotent (Part000.run [.start envOk])).2.2.2.2.1
      0 (by decide) ⟨0, [false]⟩ (by decide) (by decide)⟩

/-- Claim C9: for every ReadingList and identifier not present in it,
`deleteReading` leaves the whole session state exactly unchanged (and in
particular raises no error). -/
theorem C9_delete_absent_noop : ∀ (s : State) (id : Nat),
    (∀ r ∈ s.readings, r.id ≠ id) → deleteReading id s = s := by
  intro s id h
  unfold deleteReading
  rw [List.filter_eq_self.mpr (fun r hr => by simpa using h r hr)]

/-- Claim C9 (witness): deleting absent id 99 from a one-record list. -/
theorem C9_witness : deleteReading 99 oneRecState = oneRecState :=
  C9_delete_absent_noop oneRecState 99 (by decide)

/-- Claim C10: `deleteReading` removes every record whose identifier equals
the given id, keeps every other record, and preserves the relative order of
the remaining records (the result is a sublist of the original). -/
theorem C10_delete_filters : ∀ (s : State) (id : Nat),
    (∀ r ∈ (deleteReading id s).readings, r.id ≠ id) ∧
    List.Sublist (deleteReading id s).readings s.readings ∧
    (∀ r ∈ s.readings, r.id ≠ id → r ∈ (deleteReading id s).readings) := by
  intro s id
  refine ⟨fun r hr => ?_, ?_, fun r hr hne => ?_⟩
  · have h2 := (List.mem_filter.mp hr).2
    simpa using h2
  · exact List.filter_sublist _
  · exact List.mem_filter.mpr ⟨hr, by simpa using hne⟩

/-- Claim C10 (witness): deleting id 1 from a two-record list keeps the
record with id 2. -/
theorem C10_witness : sampleReading2 ∈ (deleteReading 1 twoRecState).readings :=
  (C10_delete_filters twoRecState 1).2.2 sampleReading2 (by decide) (by decide)

/-- Claim C1 (counterexample): in the `ocr.js` variant, a start whose
`play()` fails leaves the acquired stream live, and a subsequent successful
start overwrites the handle without releasing it — two hardware streams are
then active at once, one of them orphaned. -/
theorem C1_counterexample :
    (OcrJs.run [.start envPlayFail, .start envOk]).hw.streams
      = [⟨0, [true]⟩, ⟨1, [true]⟩] ∧
    (OcrJs.run [.start envPlayFail, .start envOk]).streamRef = some 1 ∧
    (OcrJs.run [.start envPlayFail, .start envOk]).hw.activeCount = 2 := by
  decide

/-- Claim C1 (amended): in the `part_000` variant the claim holds — across
every operation sequence at most one hardware stream is active, and every
active stream is the one currently held (no stream handle is ever orphaned;
a start invoked while a stream is active releases the old one first). -/
theorem C1_amended : ∀ ops : List Op,
    (Part000.run ops).hw.activeCount ≤ 1 ∧
    (∀ st ∈ (Part000.run ops).hw.streams, st.isActive = true →
      (Part000.run ops).streamRef = some st.sid) := by
  intro ops
  have h := Part000.inv_run ops
  exact ⟨activeCount_le_one h.activeRef h.sidsNodup, h.activeRef⟩

/-- Claim C1 (witness): after one successful start the single active stream
is the held one. -/
theorem C1_witness : (Part000.run [.start envOk]).streamRef = some 0 :=
  (C1_amended [.start envOk]).2 ⟨0, [true]⟩ (by decide) (by decide)

/-- Claim C2 (counterexample): in the `ocr.js` variant a capture in a
zero-dimension scanning state creates a CaptureRecord and tears the stream
down, and a capture in the idle state returns silently without storing any
not-ready error. -/
theorem C2_counterexample :
    (OcrJs.captureAndProcess (OcrJs.run [.start envZeroDim]) cenvOk).readings.length = 1 ∧
    (OcrJs.captureAndProcess (OcrJs.run [.start envZeroDim]) cenvOk).streamRef = none ∧
    (OcrJs.captureAndProcess (OcrJs.run [.start envZeroDim]) cenvOk).hw.activeCount = 0 ∧
    OcrJs.captureAndProcess initState cenvOk = initState := by
  decide

/-- Claim C2 (amended): in the `part_000` variant the claim holds — in every
state whose preview has zero decoded dimensions (the idle state included),
a capture only stores the not-ready error: no record is created and the
stream, hardware and scanning flag are untouched. -/
theorem C2_amended : ∀ (s : State) (env : CaptureEnv),
    (s.videoRef = none ∨ ∃ v, s.videoRef = some v ∧ v.videoWidth = 0) →
    Part000.captureAndProcess s env
      = { s with error := some "Camera not ready. Please try again." } ∧
    (Part000.captureAndProcess s env).readings = s.readings ∧
    (Part000.captureAndProcess s env).streamRef = s.streamRef ∧
    (Part000.captureAndProcess s env).hw = s.hw ∧
    (Part000.captureAndProcess s env).isScanning = s.isScanning := by
  intro s env hv
  have h := Part000.capture_notReady env hv
  rw [h]
  exact ⟨rfl, rfl, rfl, rfl, rfl⟩

/-- Claim C2 (witness): a `part_000` capture right after a start that decoded
zero dimensions leaves readings and the held stream unchanged. -/
theorem C2_witness :
    (Part000.captureAndProcess (Part000.run [.start envZeroDim]) cenvOk).readings
      = (Part000.run [.start envZeroDim]).readings ∧
    (Part000.captureAndProcess (Part000.run [.start envZeroDim]) cenvOk).streamRef
      = (Part000.run [.start envZeroDim]).streamRef := by
  have h := C2_amended (Part000.run [.start envZeroDim]) cenvOk
    (Or.inr ⟨⟨some 0, 0, 0⟩, by decide, by decide⟩)
  exact ⟨h.2.1, h.2.2.1⟩

/-- Claim C3 (counterexample): in the `ocr.js` variant a start that fails at
`play()` (after the stream was obtained) stores the error and clears the
scanning flag but keeps the live stream handle — a dangling hardware
handle. -/
theorem C3_counterexample :
    (OcrJs.startCamera initState envPlayFail).state.error
      = some "Error accessing camera: Permission denied" ∧
    (OcrJs.startCamera initState envPlayFail).state.isScanning = false ∧
    (OcrJs.startCamera initState envPlayFail).state.streamRef = some 0 ∧
    (OcrJs.startCamera initState envPlayFail).state.hw.activeCount = 1 := by
  decide

/-- Claim C3 (amended): in the `part_000` variant the claim holds — whenever
`startCamera` fails (stores an error), whatever the failure point, the
handle is dropped, the scanning flag is off and no hardware stream is left
active. -/
theorem C3_amended : ∀ (s : State) (env : StartEnv) (m : String),
    (∀ st ∈ s.hw.streams, st.isActive = true → s.streamRef = some st.sid) →
    (Part000.startCamera s env).error = some m →
    (Part000.startCamera s env).streamRef = none ∧
    (Part000.startCamera s env).isScanning = false ∧
    (Part000.startCamera s env).hw.activeCount = 0 := by
  intro s env m hact herr
  rcases Part000.start_fail_cases s env with hnone | ⟨s', e, heq, htr⟩
  · rw [hnone] at herr
    simp at herr
  · rw [heq] at herr ⊢
    exact ⟨Part000.onStartErr_streamRef s' e, Part000.onStartErr_isScanning s' e,
      Hardware.activeCount_eq_zero (Part000.onStartErr_noActive e (htr hact))⟩

/-- Claim C3 (witness): a `part_000` start failing at `play()` from the
initial state ends with no held stream, scanning off and zero active
streams. -/
theorem C3_witness :
    (Part000.startCamera initState envPlayFail).streamRef = none ∧
    (Part000.startCamera initState envPlayFail).isScanning = false ∧
    (Part000.startCamera initState envPlayFail).hw.activeCount = 0 :=
  C3_amended initState envPlayFail
    "Error accessing camera: Camera permission denied. Please allow camera access."
    (by decide) (by decide)

/-- Claim C4 (counterexample): in the `ocr.js` variant the wait for the first
frame has no timeout at all — with metadata that never arrives, the
invocation suspends forever, no error (timeout or otherwise) is produced,
and the acquired stream stays active. -/
theorem C4_counterexample :
    (OcrJs.startCamera initState envNoMeta).isHung = true ∧
    (OcrJs.startCamera initState envNoMeta).state.error = none ∧
    (OcrJs.startCamera initState envNoMeta).state.streamRef = some 0 ∧
    (OcrJs.startCamera initState envNoMeta).state.hw.activeCount = 1 := by
  decide

/-- Claim C4 (amended): in the `part_000` variant the claim holds — past the
preflight, with a stream acquired and bound, a first frame that is absent or
later than 5000 ms makes the attempt fail with the dedicated timeout
message, which differs from the permission-denied and device-not-found
messages (whatever their underlying error text). -/
theorem C4_amended : ∀ (s : State) (env : StartEnv) (k : Nat),
    env.apiSupported = true → env.secureContext = true → env.gum = .ok k →
    env.videoPresent = true → env.videoErr = false →
    (env.metadataAt = none ∨ ∃ t w hh, env.metadataAt = some (t, w, hh) ∧ 5000 < t) →
    (Part000.startCamera s env).error
      = some "Error accessing camera: Video stream timed out" ∧
    (∀ m, Part000.classify ⟨"NotAllowedError", m⟩
      = "Error accessing camera: Camera permission denied. Please allow camera access.") ∧
    (∀ m, Part000.classify ⟨"NotFoundError", m⟩
      = "Error accessing camera: No camera found on this device.") ∧
    "Error accessing camera: Video stream timed out"
      ≠ "Error accessing camera: Camera permission denied. Please allow camera access." ∧
    "Error accessing camera: Video stream timed out"
      ≠ "Error accessing camera: No camera found on this device." := by
  intro s env k hapi hsec hgum hvp hverr hmeta
  have heq := Part000.start_timeout_eq s env hapi hsec k hgum hvp hverr hmeta
  rw [heq, Part000.onStartErr_error]
  refine ⟨by decide, ?_, ?_, by decide, by decide⟩
  · intro m
    unfold Part000.classify
    rw [if_pos rfl]
    decide
  · intro m
    unfold Part000.classify
    dsimp only
    rw [if_neg (by decide), if_pos rfl]
    decide

/-- Claim C4 (witness): a `part_000` start whose metadata never arrives fails
with the timeout message. -/
theorem C4_witness :
    (Part000.startCamera initState envNoMeta).error
      = some "Error accessing camera: Video stream timed out" :=
  (C4_amended initState envNoMeta 1 rfl rfl rfl rfl rfl (Or.inl rfl)).1

/-- Claim C5: in every reachable session state (both variants), the
ReadingList carries pairwise-distinct identifiers in strictly decreasing
(newest-first) order, and every append performed by a succeeding capture
inserts the new record at the front, so `list()` returns the just-appended
record first. -/
theorem C5_append_unique_front : ∀ ops : List Op,
    ((Part000.run ops).readings.map Reading.id).Nodup ∧
    (Part000.run ops).readings.Pairwise (fun a b => b.id < a.id) ∧
    ((OcrJs.run ops).readings.map Reading.id).Nodup ∧
    (OcrJs.run ops).readings.Pairwise (fun a b => b.id < a.id) ∧
    (∀ (env : CaptureEnv) (v : VideoEl), (Part000.run ops).videoRef = some v →
      v.videoWidth ≠ 0 → env.ok = true →
      ∃ r : Reading, (Part000.captureAndProcess (Part000.run ops) env).readings
        = r :: (Part000.run ops).readings) ∧
    (∀ (env : CaptureEnv) (v : VideoEl), (OcrJs.run ops).videoRef = some v →
      env.ok = true →
      ∃ r : Reading, (OcrJs.captureAndProcess (OcrJs.run ops) env).readings
        = r :: (OcrJs.run ops).readings) := by
  intro ops
  have h1 := Part000.inv_run ops
  have h2 := OcrJs.idInv_run ops
  exact ⟨nodup_ids_of_sorted h1.toIdInv.sorted, h1.toIdInv.sorted,
    nodup_ids_of_sorted h2.sorted, h2.sorted,
    fun _ _ hv hw0 hok => Part000.p0_capture_ok_front hv hw0 hok,
    fun _ _ hv hok => OcrJs.js_capture_ok_front hv hok⟩

/-- Claim C5 (witness): a succeeding capture after a successful start
prepends exactly one record. -/
theorem C5_witness :
    ∃ r : Reading, (Part000.captureAndProcess (Part000.run [.start envOk]) cenvOk).readings
      = r :: (Part000.run [.start envOk]).readings :=
  (C5_append_unique_front [.start envOk]).2.2.2.2.1 cenvOk ⟨some 0, 640, 480⟩
    (by decide) (by decide) (by decide)

/-- Claim C6 (counterexample): for the empty ReadingList the `ocr.js` export
is `"Timestamp,Reading\n"` — the trailing newline makes it split into 2
lines (the second empty) instead of the claimed N + 1 = 1; the `part_000`
export of the same list is exactly the header line. -/
theorem C6_counterexample :
    OcrJs.exportText [] = "Timestamp,Reading\n" ∧
    (csvLines (OcrJs.exportText [])).length = 2 ∧
    Part000.exportText [] = "Timestamp,Reading" ∧
    (csvLines (Part000.exportText [])).length = 1 := by
  decide

/-- Claim C6 (amended): provided no row text contains a newline, the
`part_000` export splits into exactly N + 1 lines — the header followed by
one `<timestamp>,<reading>` row per record in list order; the `ocr.js`
export is identical for N ≥ 1, and for N = 0 it appends one extra trailing
newline to the header. -/
theorem C6_amended : ∀ rs : List Reading,
    (∀ r ∈ rs, '\n' ∉ (csvRow r).data) →
    csvLines (Part000.exportText rs)
      = ("Timestamp,Reading" : String).data :: rs.map (fun r => (csvRow r).data) ∧
    (csvLines (Part000.exportText rs)).length = rs.length + 1 ∧
    (rs ≠ [] → OcrJs.exportText rs = Part000.exportText rs) ∧
    OcrJs.exportText [] = Part000.exportText [] ++ "\n" := by
  intro rs h
  have hhdr : '\n' ∉ ("Timestamp,Reading" : String).data := by decide
  have hrows : ∀ y ∈ rs.map csvRow, '\n' ∉ y.data := by
    intro y hy
    obtain ⟨r, hr, rfl⟩ := List.mem_map.mp hy
    exact h r hr
  have h1 : csvLines (Part000.exportText rs)
      = ("Timestamp,Reading" : String).data :: rs.map (fun r => (csvRow r).data) := by
    unfold csvLines Part000.exportText
    rw [joinNl_lines (rs.map csvRow) _ hhdr hrows, List.map_map]
    rfl
  refine ⟨h1, ?_, ?_, by decide⟩
  · rw [h1]
    simp
  · intro hne
    obtain ⟨a, l, rfl⟩ := List.exists_cons_of_ne_nil hne
    unfold Part000.exportText OcrJs.exportText
    simp only [List.map_cons]
    apply String.ext
    rw [show joinNl ("Timestamp,Reading" :: csvRow a :: List.map csvRow l)
        = "Timestamp,Reading" ++ "\n" ++ joinNl (csvRow a :: List.map csvRow l) from rfl]
    rw [data_append, data_append, data_append]
    rw [show ("Timestamp,Reading\n" : String).data
        = ("Timestamp,Reading" : String).data ++ ("\n" : String).data from by decide]

/-- Claim C6 (witness): a one-record list exports as exactly two lines. -/
theorem C6_witness : (csvLines (Part000.exportText [sampleReading])).length = 2 :=
  (C6_amended [sampleReading] (by decide)).2.1

/-- Claim C7: in both variants, every capture attempt that proceeds past the
readiness check emits its stream teardown strictly after the recognizer step
has resolved (with success or with a processing failure), the teardown is
the last event of the attempt, and afterwards the session is idle with the
stream handle dropped. -/
theorem C7_teardown_after_recognizer : ∀ (s : State) (env : CaptureEnv) (v : VideoEl),
    (s.videoRef = some v → v.videoWidth ≠ 0 →
      (∃ pre, (Part000.captureAndProcessT s env).2 = pre ++ [Ev.streamStopped] ∧
        Ev.recognized env.ok ∈ pre) ∧
      (Part000.captureAndProcessT s env).1.streamRef = none ∧
      (Part000.captureAndProcessT s env).1.isScanning = false) ∧
    (s.videoRef = some v →
      (∃ pre, (OcrJs.captureAndProcessT s env).2 = pre ++ [Ev.streamStopped] ∧
        Ev.recognized env.ok ∈ pre) ∧
      (OcrJs.captureAndProcessT s env).1.streamRef = none ∧
      (OcrJs.captureAndProcessT s env).1.isScanning = false) := by
  intro s env v
  constructor
  · intro hv hw0
    have hpost := Part000.p0_capture_post env hv hw0
    refine ⟨?_, hpost.1, hpost.2⟩
    rw [Part000.p0_capture_trace env hv hw0]
    cases hok : env.ok
    · exact ⟨[Ev.drew, Ev.recognized false], by simp, by simp⟩
    · exact ⟨[Ev.drew, Ev.recognized true, Ev.appended], by simp, by simp⟩
  · intro hv
    have hpost := OcrJs.js_capture_post env hv
    refine ⟨?_, hpost.1, hpost.2⟩
    rw [OcrJs.js_capture_trace env hv]
    cases hok : env.ok
    · exact ⟨[Ev.drew, Ev.recognized false], by simp, by simp⟩
    · exact ⟨[Ev.drew, Ev.recognized true, Ev.appended], by simp, by simp⟩

/-- Claim C7 (witness): a capture after a successful `part_000` start ends
with the teardown event last, after the recognizer resolved. -/
theorem C7_witness :
    (∃ pre, (Part000.captureAndProcessT (Part000.run [.start envOk]) cenvOk).2
        = pre ++ [Ev.streamStopped] ∧ Ev.recognized cenvOk.ok ∈ pre) ∧
    (Part000.captureAndProcessT (Part000.run [.start envOk]) cenvOk).1.streamRef = none ∧
    (Part000.captureAndProcessT (Part000.run [.start envOk]) cenvOk).1.isScanning = false :=
  (C7_teardown_after_recognizer (Part000.run [.start envOk]) cenvOk
    ⟨some 0, 640, 480⟩).1 (by decide) (by decide)

end Odometer
